import Mathlib

/-!
Shallow embedding of the segment-scheduling core of the `timer` repository.

The repository file `src/segmentManager.js` holds two concatenated revisions
of the `SegmentManager` class; the definitions below without a `B` suffix are
translated from the first revision (the one the scheduler claims cite), and
`B`-suffixed definitions are translated from the second revision where the two
differ (`loadConfig`'s multi-segment classification).  Likewise
`src/coreTimer.js` holds two revisions of `TimerCore`; `drawTimerArcStep`
embeds the completion handling of the first revision and `drawTimerArcStepB`
that of the second.  `Session-Timer/src/eventBus.js` is embedded at the end.

Wall-clock times of day are modelled as parsed `HH:MM` pairs (`Hm`), matching
what `parseTime` extracts from the well-formed time strings the loader hands
over; minute arithmetic that can go negative (`endTime - durationMinutes`) and
JavaScript `Math.floor`/`%` on possibly negative values use `Int` with
`Int.fdiv`/`Int.tmod`, which agree with `Math.floor(a/b)` and `a % b`.
-/

/-- A parsed `HH:MM` time-of-day (the two numeric fields `split(':')` yields). -/
structure Hm where
  h : Nat
  m : Nat
  deriving DecidableEq, Repr

/-- Minutes since midnight of an `HH:MM` value, as computed by
`SegmentManager.parseTime` (`hours * 60 + minutes`). -/
def parseTime (t : Hm) : Nat :=
  t.h * 60 + t.m

/-- Timer direction: the `mode` field, `'down'` or `'up'`. -/
inductive Mode where
  | down
  | up
  deriving DecidableEq, Repr

/-- One entry of `this.segments` as built by `SegmentManager.loadConfig`. -/
structure Segment where
  startTime : Hm
  durationMinutes : Nat
  durationSec : Nat
  mode : Mode
  countDown : Bool
  manualStart : Bool
  /-- Field `autoStart` is an `HH:MM` string or `null`/absent in the source;
  `none` models the falsy cases. -/
  autoStart : Option Hm
  deriving DecidableEq, Repr

instance : Inhabited Segment :=
  ⟨{ startTime := ⟨0, 0⟩, durationMinutes := 0, durationSec := 0,
     mode := Mode.down, countDown := true, manualStart := false,
     autoStart := none }⟩

/-- The `HH:MM` string built from a minutes value `v` by
`Math.floor(v / 60) % 24` and `v % 60` (`padStart` only affects formatting),
kept as the pair of JavaScript numbers. -/
def timeStrOf (v : Int) : Int × Int :=
  ((v.fdiv 60).tmod 24, v.tmod 60)

/-- The `configForTimer` object handed to the timer core via
`timer:configure`.  Fields absent on a branch of the source are `none` /
`false`. -/
structure TimerConfig where
  segmentDuration : Int
  countDown : Bool
  autoStart : Option (Int × Int)
  manualStart : Bool
  urlStartTime : Option (Int × Int)
  urlDuration : Option Int
  deriving DecidableEq, Repr

/-- Events published on the bus that the scheduler claims observe. -/
inductive Ev where
  | timerConfigure : TimerConfig → Ev
  | segmentActive : Nat → Nat → Nat → Ev
  | scheduleCompleted : Ev
  | segmentCompleted : Int → Mode → Bool → Ev
  | timerStarted : Ev
  | timerStopped : Ev
  deriving DecidableEq, Repr

/-- Mutable state of `SegmentManager` (first revision); `autoStartTimeout`
records whether the settle-delay `setTimeout` is pending (`null` = `false`). -/
structure SMState where
  segments : List Segment
  currentSegmentIndex : Nat
  isActive : Bool
  scheduleStarted : Bool
  userPaused : Bool
  segmentActivated : List Bool
  autoStartTimeout : Bool
  deriving DecidableEq, Repr

/-- The run configuration `SegmentManager.activateSegment` builds for the
timer core: the `segment.manualStart` branch, and otherwise the
`segment.mode === 'down'` / count-up branches (first revision). -/
def configForTimer (seg : Segment) (elapsedMinutes : Nat) : TimerConfig :=
  if seg.manualStart then
    { segmentDuration := (seg.durationSec : Int),
      countDown := seg.countDown,
      autoStart := none,
      manualStart := true,
      urlStartTime := none,
      urlDuration := none }
  else if seg.mode = Mode.down then
    let endTime : Int := (parseTime seg.startTime : Int)
    let startTime : Int := endTime - (seg.durationMinutes : Int)
    let startTimeStr := timeStrOf (startTime + (elapsedMinutes : Int))
    { segmentDuration := (seg.durationSec : Int) - (elapsedMinutes : Int) * 60,
      countDown := true,
      autoStart := some startTimeStr,
      manualStart := false,
      urlStartTime := some startTimeStr,
      urlDuration := some ((seg.durationSec : Int) - (elapsedMinutes : Int) * 60) }
  else
    let startTime : Int := (parseTime seg.startTime : Int)
    let startTimeStr := timeStrOf (startTime + (elapsedMinutes : Int))
    { segmentDuration := (seg.durationSec : Int) - (elapsedMinutes : Int) * 60,
      countDown := false,
      autoStart := some startTimeStr,
      manualStart := false,
      urlStartTime := some startTimeStr,
      urlDuration := some ((seg.durationSec : Int) - (elapsedMinutes : Int) * 60) }

/-- Embedding of `SegmentManager.activateSegment(segmentIndex, elapsedMinutes)`: guards the
out-of-range case with `schedule:completed`, marks the segment activated, sets
`isActive`/`scheduleStarted`, emits `timer:configure` and `segment:active`,
and leaves the settle-delay timeout pending when `elapsedMinutes > 0` or when
the segment is a scheduled one with a truthy `autoStart`. -/
def activateSegment (s : SMState) (segmentIndex : Nat) (elapsedMinutes : Nat) :
    SMState × List Ev :=
  if segmentIndex < s.segments.length then
    let seg := s.segments.getD segmentIndex default
    let cfg := configForTimer seg elapsedMinutes
    let pending :=
      if elapsedMinutes > 0 then true
      else if !seg.manualStart && seg.autoStart.isSome then true
      else s.autoStartTimeout
    ({ s with
        isActive := true,
        scheduleStarted := true,
        segmentActivated := s.segmentActivated.set segmentIndex true,
        autoStartTimeout := pending },
      [Ev.timerConfigure cfg,
       Ev.segmentActive segmentIndex elapsedMinutes s.segments.length])
  else
    (s, [Ev.scheduleCompleted])

/-- Embedding of `SegmentManager.tick()` evaluated at wall-clock minute `t`
(`currentTime = hours * 60 + minutes`): the guard chain of the source, the
`[segmentStart, segmentStart + durationMinutes)` window test, activation with
`elapsedMinutes = currentTime - segmentStartTime`, and the expired-segment
recursion (`currentSegmentIndex++; this.tick()`). -/
def tick (s : SMState) (t : Nat) : SMState × List Ev :=
  if s.segments.length = 0 then (s, [])
  else if s.userPaused then (s, [])
  else if s.isActive then (s, [])
  else if _h : s.currentSegmentIndex < s.segments.length then
    let seg := s.segments.getD s.currentSegmentIndex default
    if seg.manualStart then (s, [])
    else if s.userPaused then (s, [])
    else if s.segmentActivated.getD s.currentSegmentIndex false then (s, [])
    else
      let segmentStartTime := parseTime seg.startTime
      if segmentStartTime ≤ t then
        let segmentEndTime := segmentStartTime + seg.durationMinutes
        if t < segmentEndTime then
          activateSegment s s.currentSegmentIndex (t - segmentStartTime)
        else
          tick { s with currentSegmentIndex := s.currentSegmentIndex + 1 } t
      else (s, [])
  else (s, [])
termination_by s.segments.length - s.currentSegmentIndex
decreasing_by
  omega

/-- Embedding of `SegmentManager.createManualTimer()`: the synthesized default 40-minute
count-down manual segment (its object literal has no `autoStart` property). -/
def createManualTimer (s : SMState) (now : Hm) : SMState × List Ev :=
  let seg : Segment :=
    { startTime := now,
      durationSec := 2400,
      durationMinutes := 40,
      mode := Mode.down,
      countDown := true,
      manualStart := true,
      autoStart := none }
  let s2 := { s with segments := [seg], currentSegmentIndex := 0 }
  activateSegment s2 0 0

/-- Embedding of `SegmentManager.handleManualStart`: clears `userPaused`, ignores the
request while `isActive`, synthesizes a manual timer past the end of the
list, and otherwise activates `segments[currentSegmentIndex]` with
`elapsedMinutes = 0`. -/
def handleManualStart (s : SMState) (now : Hm) : SMState × List Ev :=
  let s2 := { s with userPaused := false }
  if s2.isActive then (s2, [])
  else if s2.segments.length ≤ s2.currentSegmentIndex then
    createManualTimer s2 now
  else
    activateSegment s2 s2.currentSegmentIndex 0

/-- Embedding of `SegmentManager.handleStop()`: clears `isActive`, sets `userPaused`,
cancels a pending auto-start timeout, and leaves `currentSegmentIndex`
unchanged. -/
def handleStop (s : SMState) : SMState :=
  { s with isActive := false, userPaused := true, autoStartTimeout := false }

/-- Embedding of `SegmentManager.handleSegmentCompleted()`: unconditionally clears
`isActive` and `userPaused` and increments `currentSegmentIndex`; when the
list is exhausted it emits `schedule:completed` (otherwise it only defers a
`tick` by one second). -/
def handleSegmentCompleted (s : SMState) : SMState × List Ev :=
  let s2 := { s with
      isActive := false,
      userPaused := false,
      currentSegmentIndex := s.currentSegmentIndex + 1 }
  if s2.currentSegmentIndex < s2.segments.length then (s2, [])
  else (s2, [Ev.scheduleCompleted])

/-- One entry of `config.segments` as delivered by `config:ready`. -/
structure CfgSegment where
  time : Hm
  duration : Nat
  /-- `segment.mode` may be absent (`segment.mode || 'down'`). -/
  mode : Option Mode
  deriving DecidableEq, Repr

/-- The multi-segment branch of `loadConfig` in the first revision: every URL
segment is classified as scheduled (`manualStart: false`,
`autoStart: segment.time`). -/
def loadSegmentsA (cfgSegments : List CfgSegment) : List Segment :=
  cfgSegments.map fun segment =>
    { startTime := segment.time,
      durationMinutes := segment.duration,
      durationSec := segment.duration * 60,
      mode := segment.mode.getD Mode.down,
      countDown := segment.mode.getD Mode.down = Mode.down,
      manualStart := false,
      autoStart := some segment.time }

/-- The multi-segment branch of `loadConfig` in the second revision: a segment
whose time is within 2 minutes of the load-time wall clock
(`currentTimeMinutes`) is an "immediate preset" (`manualStart: true`,
`autoStart: null`); all others are scheduled. -/
def loadSegmentsB (cfgSegments : List CfgSegment) (currentTimeMinutes : Nat) :
    List Segment :=
  cfgSegments.map fun segment =>
    let segmentTime := parseTime segment.time
    let timeDiff := ((segmentTime : Int) - (currentTimeMinutes : Int)).natAbs
    let isImmediatePreset := timeDiff ≤ 2
    { startTime := segment.time,
      durationMinutes := segment.duration,
      durationSec := segment.duration * 60,
      mode := segment.mode.getD Mode.down,
      countDown := segment.mode.getD Mode.down = Mode.down,
      manualStart := isImmediatePreset,
      autoStart := if !isImmediatePreset then some segment.time else none }

/-- The state-reset tail of `loadConfig` shared by both revisions: index 0,
flags cleared, a fresh all-`false` `segmentActivated` array of the new list's
length (`loadConfig` does not touch `autoStartTimeout`). -/
def loadConfigReset (s : SMState) (newSegments : List Segment) : SMState :=
  { s with
      segments := newSegments,
      currentSegmentIndex := 0,
      isActive := false,
      scheduleStarted := false,
      userPaused := false,
      segmentActivated := List.replicate newSegments.length false }

/-- `loadConfig` (first revision) on a multi-segment configuration. -/
def loadConfigA (s : SMState) (cfgSegments : List CfgSegment) : SMState :=
  loadConfigReset s (loadSegmentsA cfgSegments)

/-- Mutable timing state of `TimerCore` (the fields the run lifecycle touches). -/
structure TCState where
  running : Bool
  manualRun : Bool
  segmentStartMs : Option Int
  segmentDurationSec : Int
  countDown : Bool
  deriving DecidableEq, Repr

/-- Embedding of `TimerCore.stopSegment()`: clears the run state and emits
`timer:stopped`. -/
def stopSegment (t : TCState) : TCState × List Ev :=
  ({ t with running := false, manualRun := false, segmentStartMs := none },
   [Ev.timerStopped])

/-- Embedding of `TimerCore.startSegmentNow(isManual)` at wall-clock instant `nowMs`:
records the start instant, raises `running`, and emits `timer:started`. -/
def startSegmentNow (t : TCState) (isManual : Bool) (nowMs : Int) :
    TCState × List Ev :=
  ({ t with manualRun := isManual, segmentStartMs := some nowMs, running := true },
   [Ev.timerStarted])

/-- JavaScript `Math.round(segmentDurationSec / 60)`: rounding (half up) of
the duration in minutes, as `⌊d/60 + 1/2⌋`. -/
def jsRoundMinutes (d : Int) : Int :=
  (2 * d + 60).fdiv 120

/-- The timing/completion content of `TimerCore.drawTimerArc` in the first
embedded revision, evaluated at wall-clock instant `nowMs`: the
`!running || segmentStartMs == null` guard, the clamped elapsed computation,
and — when `clamped >= segmentDurationSec` — the single `segment:completed`
emission followed by `stopSegment()`. -/
def drawTimerArcStep (t : TCState) (nowMs : Int) : TCState × List Ev :=
  if !t.running || t.segmentStartMs.isNone then (t, [])
  else
    let startMs := t.segmentStartMs.getD 0
    let elapsedSec := max 0 ((nowMs - startMs).fdiv 1000)
    let clamped := min elapsedSec t.segmentDurationSec
    if t.segmentDurationSec ≤ clamped then
      let completedEv := Ev.segmentCompleted (jsRoundMinutes t.segmentDurationSec)
        (if t.countDown then Mode.down else Mode.up) t.manualRun
      let stopped := stopSegment t
      (stopped.1, completedEv :: stopped.2)
    else (t, [])

/-- The completion handling of `TimerCore.drawTimerArc` in the second embedded
revision: on completion a manual run is stopped (no completion event is
emitted) and a non-manual run is restarted via `startSegmentNow(false)`. -/
def drawTimerArcStepB (t : TCState) (nowMs : Int) : TCState × List Ev :=
  if !t.running || t.segmentStartMs.isNone then (t, [])
  else
    let startMs := t.segmentStartMs.getD 0
    let elapsedSec := max 0 ((nowMs - startMs).fdiv 1000)
    let clamped := min elapsedSec t.segmentDurationSec
    if t.segmentDurationSec ≤ clamped then
      if t.manualRun then stopSegment t
      else startSegmentNow t false nowMs
    else (t, [])

/-- The combined scheduler/timer-core state, coupling the two components that
subscribe to the same bus events. -/
structure SysState where
  sm : SMState
  tc : TCState
  deriving DecidableEq, Repr

/-- A `timer:stop` publish as both subscribers see it:
`SegmentManager.handleStop` and `TimerCore.stopSegment`. -/
def userStop (c : SysState) : SysState :=
  { sm := handleStop c.sm, tc := (stopSegment c.tc).1 }

/-- Passage of the settle delay: when an auto-start timeout is pending the
stored callback clears the handle and publishes `timer:start false`, which
`SegmentManager.handleManualStart` and `TimerCore.startSegmentNow` receive;
with no pending timeout nothing happens. -/
def settleElapse (c : SysState) (now : Hm) (nowMs : Int) : SysState :=
  if c.sm.autoStartTimeout then
    let sm2 := { c.sm with autoStartTimeout := false }
    { sm := (handleManualStart sm2 now).1,
      tc := (startSegmentNow c.tc false nowMs).1 }
  else c

/-- The scheduler operations that can interleave within one configuration
load (periodic tick, user start, user stop, completion signal). -/
inductive SMOp where
  | tickOp : Nat → SMOp
  | startOp : Hm → SMOp
  | stopOp : SMOp
  | completedOp : SMOp
  deriving DecidableEq, Repr

/-- State effect of one scheduler operation. -/
def applySM : SMOp → SMState → SMState
  | SMOp.tickOp t, s => (tick s t).1
  | SMOp.startOp now, s => (handleManualStart s now).1
  | SMOp.stopOp, s => handleStop s
  | SMOp.completedOp, s => (handleSegmentCompleted s).1

/-- One registered listener of the event bus for a fixed event name:
a handler identity plus whether it is a `once` wrapper that unsubscribes
itself after its first invocation. -/
structure Listener where
  hid : Nat
  isOnce : Bool
  deriving DecidableEq, Repr

/-- Embedding of `EventBus.off`: removes every listener with the given identity
(`filter(cb => cb !== callback)`). -/
def busOff (listeners : List Listener) (hid : Nat) : List Listener :=
  listeners.filter fun cb => cb.hid ≠ hid

/-- Embedding of `EventBus.emit`: the first component is the list of invoked
listeners: `forEach` runs over the listener array captured at publish time,
so every listener present at the start of the publish is invoked, and a
thrown handler exception is caught per-listener (logged, never propagated).
`throws` says which handler identities throw during this publish.  The
second component is the post-publish subscription list: a `once` wrapper
calls `off` on itself only after its inner callback returns normally, so a
throwing callback skips the `off` call and the wrapper stays subscribed;
plain listeners always stay. -/
def busEmit (listeners : List Listener) (throws : Nat → Bool) :
    List Listener × List Listener :=
  (listeners,
   listeners.filter fun cb => !cb.isOnce || throws cb.hid)

/-- Embedding of `EventBus.once`: subscribes a fresh self-removing wrapper for
`callback`. -/
def busOnce (listeners : List Listener) (hid : Nat) : List Listener :=
  listeners ++ [{ hid := hid, isOnce := true }]

/-- One run of the bus from a listener list, one entry per successive
publish of the event: the publish's invocation list paired with that
publish's handler-throw behavior. -/
def emitTrace : List (Nat → Bool) → List Listener → List (List Listener × (Nat → Bool))
  | [], _ => []
  | th :: ths, l => ((busEmit l th).1, th) :: emitTrace ths (busEmit l th).2

/-- Example scheduled count-down segment: `{time: "15:00", duration: 30}`. -/
def exSegDown : Segment := ⟨⟨15, 0⟩, 30, 1800, Mode.down, true, false, some ⟨15, 0⟩⟩

/-- Example scheduled count-down segment: `{time: "10:00", duration: 20}`. -/
def exSegTen : Segment := ⟨⟨10, 0⟩, 20, 1200, Mode.down, true, false, some ⟨10, 0⟩⟩

/-- Example scheduled count-down segment: `{time: "11:00", duration: 30}`. -/
def exSegEleven : Segment := ⟨⟨11, 0⟩, 30, 1800, Mode.down, true, false, some ⟨11, 0⟩⟩

/-- The scheduler state right after `loadConfig` installed `segs`. -/
def exState (segs : List Segment) : SMState :=
  ⟨segs, 0, false, false, false, List.replicate segs.length false, false⟩

/-- A non-manual run one minute long that started at epoch instant 0. -/
def exRunB : TCState := ⟨true, false, some 0, 60, true⟩

/-- A three-segment schedule with the first segment running. -/
def exStateC3 : SMState :=
  ⟨[exSegTen, exSegEleven, exSegDown], 0, true, true, false, [true, false, false], false⟩

/-- A one-segment schedule whose segment has already been activated once. -/
def exActivatedState : SMState := ⟨[exSegTen], 0, false, true, false, [true], false⟩

/-- A two-segment `config.segments` payload whose first entry is scheduled at
the load-time wall clock. -/
def exCfgNear : List CfgSegment := [⟨⟨10, 0⟩, 20, none⟩, ⟨⟨11, 0⟩, 30, none⟩]

/-- Setting an entry of a flag list to `true` never turns another `true`
entry off. -/
lemma set_true_mono (l : List Bool) (j i : Nat) (h : l[i]? = some true) :
    (l.set j true)[i]? = some true := by
  induction l generalizing i j with
  | nil => simp at h
  | cons a l ih =>
    cases j with
    | zero => cases i with
      | zero => simp
      | succ i => simpa using h
    | succ j => cases i with
      | zero => simpa using h
      | succ i => simpa using ih j i (by simpa using h)

/-- Activation only ever sets a flag to `true`. -/
lemma activateSegment_mono (s : SMState) (idx e i : Nat)
    (h : s.segmentActivated[i]? = some true) :
    ((activateSegment s idx e).1).segmentActivated[i]? = some true := by
  unfold activateSegment
  split
  · simpa using set_true_mono _ idx i h
  · exact h

/-- Activation never touches the flag of a different segment index. -/
lemma activateSegment_preserve_ne (s : SMState) (idx e i : Nat) (hne : idx ≠ i) :
    ((activateSegment s idx e).1).segmentActivated[i]? = s.segmentActivated[i]? := by
  unfold activateSegment
  split
  · simpa using List.getElem?_set_ne hne
  · rfl

/-- A `tick` never resets a `true` activation flag. -/
theorem tick_activated_mono (s : SMState) (t i : Nat)
    (h : s.segmentActivated[i]? = some true) :
    ((tick s t).1).segmentActivated[i]? = some true := by
  rw [tick]
  simp only []
  repeat' split
  any_goals exact h
  · exact activateSegment_mono _ _ _ _ h
  · exact tick_activated_mono _ t i h
termination_by s.segments.length - s.currentSegmentIndex
decreasing_by omega

/-- A `tick` leaves the flags of every segment before the current index
untouched (the expired-skip recursion only moves forward). -/
theorem tick_preserves_below (s : SMState) (t i : Nat)
    (hi : i < s.currentSegmentIndex) :
    ((tick s t).1).segmentActivated[i]? = s.segmentActivated[i]? := by
  rw [tick]
  simp only []
  repeat' split
  any_goals rfl
  · exact activateSegment_preserve_ne _ _ _ _ (by omega)
  · exact tick_preserves_below _ t i (show i < s.currentSegmentIndex + 1 by omega)
termination_by s.segments.length - s.currentSegmentIndex
decreasing_by omega

/-- Reading the current segment through `getD` agrees with a `getElem?` fact. -/
lemma getD_of_getElem? (s : SMState) (seg : Segment)
    (h1 : s.segments[s.currentSegmentIndex]? = some seg) :
    s.segments.getD s.currentSegmentIndex default = seg := by
  rw [List.getD_eq_getElem?_getD, h1]; rfl

/-- A present current segment means the index is in bounds. -/
lemma lt_length_of_getElem? (s : SMState) (seg : Segment)
    (h1 : s.segments[s.currentSegmentIndex]? = some seg) :
    s.currentSegmentIndex < s.segments.length := by
  by_contra hc
  rw [List.getElem?_eq_none (by omega)] at h1
  exact Option.noConfusion h1

/-- In-bounds indexing agrees with a `getElem?` fact. -/
lemma getElem_of_getElem? (s : SMState) (seg : Segment)
    (h1 : s.segments[s.currentSegmentIndex]? = some seg)
    (hlt : s.currentSegmentIndex < s.segments.length) :
    s.segments[s.currentSegmentIndex] = seg := by
  have := List.getElem?_eq_getElem hlt
  rw [h1] at this
  exact (Option.some_inj.mp this).symm

/-- Restating the activation-flag guard in `getElem?` form. -/
lemma flag_getD (s : SMState)
    (h5 : s.segmentActivated.getD s.currentSegmentIndex false = false) :
    s.segmentActivated[s.currentSegmentIndex]?.getD false = false := by
  rw [← List.getD_eq_getElem?_getD]
  exact h5

/-- A tick strictly before the current segment's `parseTime` start is a no-op. -/
lemma tick_before_start (s : SMState) (seg : Segment) (t : Nat)
    (h1 : s.segments[s.currentSegmentIndex]? = some seg)
    (h6 : t < parseTime seg.startTime) :
    tick s t = (s, []) := by
  have hg := getD_of_getElem? s seg h1
  rw [tick]
  simp only [hg]
  repeat' split
  all_goals first | rfl | omega

/-- A tick inside the current segment's window activates it with the
elapsed-minutes difference. -/
lemma tick_in_window (s : SMState) (seg : Segment) (t : Nat)
    (h1 : s.segments[s.currentSegmentIndex]? = some seg)
    (h2 : seg.manualStart = false)
    (h3 : s.isActive = false)
    (h4 : s.userPaused = false)
    (h5 : s.segmentActivated.getD s.currentSegmentIndex false = false)
    (h6 : parseTime seg.startTime ≤ t)
    (h7 : t < parseTime seg.startTime + seg.durationMinutes) :
    tick s t = activateSegment s s.currentSegmentIndex (t - parseTime seg.startTime) := by
  have hlt := lt_length_of_getElem? s seg h1
  have hseg := getElem_of_getElem? s seg h1 hlt
  have h5x := flag_getD s h5
  rw [tick]
  simp [hseg, h2, h3, h4, h5x, h6, h7, hlt, show s.segments.length ≠ 0 from by omega]

/-- A tick on an already-activated current segment is a no-op. -/
lemma tick_noop_of_activated (s : SMState) (t : Nat)
    (h5 : s.segmentActivated.getD s.currentSegmentIndex false = true) :
    tick s t = (s, []) := by
  rw [tick]
  simp only []
  repeat' split
  all_goals rfl

/-- A tick past the current segment's window bumps the index and re-runs. -/
lemma tick_expired (s : SMState) (seg : Segment) (t : Nat)
    (h1 : s.segments[s.currentSegmentIndex]? = some seg)
    (h2 : seg.manualStart = false)
    (h3 : s.isActive = false)
    (h4 : s.userPaused = false)
    (h5 : s.segmentActivated.getD s.currentSegmentIndex false = false)
    (h7 : parseTime seg.startTime + seg.durationMinutes ≤ t) :
    tick s t = tick { s with currentSegmentIndex := s.currentSegmentIndex + 1 } t := by
  have hlt := lt_length_of_getElem? s seg h1
  have hseg := getElem_of_getElem? s seg h1 hlt
  have h5x := flag_getD s h5
  rw [tick]
  simp [hseg, h2, h3, h4, h5x, hlt, show s.segments.length ≠ 0 from by omega,
    show parseTime seg.startTime ≤ t from by omega,
    show ¬(t < parseTime seg.startTime + seg.durationMinutes) from by omega]

/-- A `once` wrapper whose callback returned normally is gone from the
post-publish listener list (its self-removing `off` call ran). -/
lemma once_removed_of_normal (l : List Listener) (w : Listener) (th : Nat → Bool)
    (hw : w.isOnce = true) (hth : th w.hid = false) :
    w ∉ (busEmit l th).2 := by
  intro hc
  have := List.of_mem_filter hc
  simp [hw, hth] at this

/-- A publish never adds listeners. -/
lemma notMem_busEmit (l : List Listener) (w : Listener) (th : Nat → Bool)
    (h : w ∉ l) :
    w ∉ (busEmit l th).2 := by
  intro hc
  exact h (List.mem_of_mem_filter hc)

/-- An unsubscribed listener is never invoked again over any publish trace. -/
lemma emitTrace_count_zero (ths : List (Nat → Bool)) (l : List Listener) (w : Listener)
    (h : w ∉ l) :
    (emitTrace ths l).countP (fun p => decide (w ∈ p.1) && !p.2 w.hid) = 0 := by
  induction ths generalizing l with
  | nil => rfl
  | cons th ths ih =>
    rw [emitTrace, List.countP_cons]
    rw [ih _ (notMem_busEmit l w th h)]
    simp [busEmit, h]

/-- Over any publish trace, a `once` wrapper is invoked with a normal return
by at most one publish: the first normal-return invocation unsubscribes it. -/
theorem once_normal_count (ths : List (Nat → Bool)) (l : List Listener) (w : Listener)
    (hw : w.isOnce = true) :
    (emitTrace ths l).countP (fun p => decide (w ∈ p.1) && !p.2 w.hid) ≤ 1 := by
  induction ths generalizing l with
  | nil => simp [emitTrace]
  | cons th ths ih =>
    rw [emitTrace, List.countP_cons]
    by_cases hth : th w.hid = false
    · rw [emitTrace_count_zero ths _ w (once_removed_of_normal l w th hw hth)]
      split <;> omega
    · have hth2 : th w.hid = true := by
        revert hth; cases th w.hid <;> simp
      have htail := ih ((busEmit l th).2)
      simp only [hth2, Bool.not_true, Bool.and_false]
      simpa using htail

/-- A manual start never resets a `true` activation flag. -/
lemma handleManualStart_mono (s : SMState) (now : Hm) (i : Nat)
    (h : s.segmentActivated[i]? = some true) :
    ((handleManualStart s now).1).segmentActivated[i]? = some true := by
  unfold handleManualStart createManualTimer
  simp only []
  repeat' split
  all_goals first | exact h | exact activateSegment_mono _ _ _ _ h

/-- No scheduler operation resets a `true` activation flag. -/
lemma applySM_mono (op : SMOp) (s : SMState) (i : Nat)
    (h : s.segmentActivated[i]? = some true) :
    ((applySM op s).segmentActivated)[i]? = some true := by
  cases op with
  | tickOp t => exact tick_activated_mono s t i h
  | startOp now => exact handleManualStart_mono s now i h
  | stopOp => exact h
  | completedOp =>
    unfold applySM handleSegmentCompleted
    simp only []
    split
    · exact h
    · exact h

/-- Claim C1, counterexample.  The claim says the tick's wall-clock
comparison uses `scheduledTime - durationMinutes` as the derived start for a
CountDown segment.  For the scheduled CountDown segment
`{time: "15:00", duration: 30}` that derived start would be minute 870
(14:30), so a tick at minute 880 would activate; the embedded `tick` does
nothing at 880 because it compares against `parseTime` of the scheduled time
itself (minute 900) for both directions. -/
theorem tick_countdown_start_shift_refuted :
    exSegDown.mode = Mode.down ∧ exSegDown.manualStart = false ∧
    (exState [exSegDown]).segments[(exState [exSegDown]).currentSegmentIndex]? = some exSegDown ∧
    parseTime exSegDown.startTime - exSegDown.durationMinutes = 870 ∧
    870 ≤ 880 ∧ 880 < 900 ∧
    tick (exState [exSegDown]) 880 = (exState [exSegDown], []) := by
  refine ⟨rfl, rfl, rfl, by decide, by omega, by omega, ?_⟩
  exact tick_before_start _ exSegDown 880 rfl (by decide)

/-- Claim C1, amended.  The tick's wall-clock comparison uses
`parseTime scheduledTime` directly as the activation threshold for both
directions: no activation strictly before it, activation (with the
elapsed-minutes difference) inside `[start, start + durationMinutes)`.  The
direction-dependent derived start — `scheduledTime - durationMinutes` for
CountDown, `scheduledTime` for CountUp — appears only in the run
configuration (`autoStart`/`urlStartTime`) that `activateSegment` builds for
the timer core. -/
theorem tick_threshold_and_config_derivation :
    (∀ (s : SMState) (seg : Segment) (t : Nat),
        s.segments[s.currentSegmentIndex]? = some seg →
        t < parseTime seg.startTime →
        tick s t = (s, [])) ∧
    (∀ (s : SMState) (seg : Segment) (t : Nat),
        s.segments[s.currentSegmentIndex]? = some seg →
        seg.manualStart = false → s.isActive = false → s.userPaused = false →
        s.segmentActivated.getD s.currentSegmentIndex false = false →
        parseTime seg.startTime ≤ t →
        t < parseTime seg.startTime + seg.durationMinutes →
        tick s t = activateSegment s s.currentSegmentIndex (t - parseTime seg.startTime)) ∧
    (∀ (seg : Segment) (elapsedMinutes : Nat),
        seg.manualStart = false →
        (configForTimer seg elapsedMinutes).autoStart =
          some (timeStrOf
            ((if seg.mode = Mode.down then
                (parseTime seg.startTime : Int) - (seg.durationMinutes : Int)
              else (parseTime seg.startTime : Int)) + (elapsedMinutes : Int))) ∧
        (configForTimer seg elapsedMinutes).urlStartTime =
          (configForTimer seg elapsedMinutes).autoStart) := by
  refine ⟨?_, ?_, ?_⟩
  · exact fun s seg t h1 h6 => tick_before_start s seg t h1 h6
  · exact fun s seg t h1 h2 h3 h4 h5 h6 h7 => tick_in_window s seg t h1 h2 h3 h4 h5 h6 h7
  · intro seg e h2
    unfold configForTimer
    simp only [h2]
    cases hm : seg.mode <;> simp [hm]

/-- Witness for the C1 amended theorem at `{time: "15:00", duration: 30}`:
no activation at 14:40, activation with elapsed 5 at 15:05, and a config
derived start of 14:30. -/
theorem tick_threshold_and_config_derivation_witness :
    tick (exState [exSegDown]) 880 = (exState [exSegDown], []) ∧
    tick (exState [exSegDown]) 905 = activateSegment (exState [exSegDown]) 0 5 ∧
    (configForTimer exSegDown 0).autoStart = some (14, 30) := by
  refine ⟨?_, ?_, ?_⟩
  · exact tick_threshold_and_config_derivation.1 _ exSegDown 880 rfl (by decide)
  · simpa using tick_threshold_and_config_derivation.2.1 (exState [exSegDown]) exSegDown 905
      rfl (by decide) (by decide) (by decide) (by decide) (by decide) (by decide)
  · simpa using (tick_threshold_and_config_derivation.2.2 exSegDown 0 (by decide)).1

/-- Claim C2, counterexample.  In the second embedded revision of
`TimerCore.drawTimerArc`, a non-manual run whose clamped elapsed time has
reached the nominal duration emits no completion signal and does not stop:
it restarts (`timer:started`, `running` still `true`). -/
theorem completion_second_revision_refuted :
    ((60 : Int) ≤ max 0 (((60000 : Int) - 0).fdiv 1000)) ∧
    exRunB.running = true ∧ exRunB.manualRun = false ∧
    exRunB.segmentDurationSec = 60 ∧
    (drawTimerArcStepB exRunB 60000).1.running = true ∧
    (drawTimerArcStepB exRunB 60000).2 = [Ev.timerStarted] := by
  refine ⟨by decide, rfl, rfl, rfl, ?_, ?_⟩ <;>
    simp [drawTimerArcStepB, exRunB, startSegmentNow,
      show ((60 : Int) ≤ (60000 : Int).fdiv 1000) by decide]

/-- Claim C2, amended.  In the first embedded revision of
`TimerCore.drawTimerArc`, whenever a running timer's clamped elapsed time
reaches the nominal duration, the frame emits exactly one
`segment:completed` signal carrying the duration rounded to minutes, the
direction, and `wasManual`, then stops the run (`running` becomes `false`
and later frames emit nothing). -/
theorem completion_emits_once_then_stops (t : TCState) (nowMs m : Int)
    (h1 : t.running = true) (h2 : t.segmentStartMs = some m)
    (h3 : t.segmentDurationSec ≤ max 0 ((nowMs - m).fdiv 1000)) :
    drawTimerArcStep t nowMs =
      ({ t with running := false, manualRun := false, segmentStartMs := none },
       [Ev.segmentCompleted (jsRoundMinutes t.segmentDurationSec)
          (if t.countDown then Mode.down else Mode.up) t.manualRun,
        Ev.timerStopped]) ∧
    (∀ nowMs2 : Int,
      drawTimerArcStep (drawTimerArcStep t nowMs).1 nowMs2
        = ((drawTimerArcStep t nowMs).1, [])) := by
  have hmain : drawTimerArcStep t nowMs =
      ({ t with running := false, manualRun := false, segmentStartMs := none },
       [Ev.segmentCompleted (jsRoundMinutes t.segmentDurationSec)
          (if t.countDown then Mode.down else Mode.up) t.manualRun,
        Ev.timerStopped]) := by
    unfold drawTimerArcStep stopSegment
    simp [h1, h2, le_min_iff, h3]
  refine ⟨hmain, fun nowMs2 => ?_⟩
  rw [hmain]
  unfold drawTimerArcStep
  simp

/-- Witness for the C2 amended theorem: a one-minute non-manual run
completing at 60 s emits exactly `segment:completed {1, down, false}` and
stops. -/
theorem completion_emits_once_then_stops_witness :
    drawTimerArcStep exRunB 60000 =
      ({ exRunB with running := false, manualRun := false, segmentStartMs := none },
       [Ev.segmentCompleted 1 Mode.down false, Ev.timerStopped]) := by
  simpa using (completion_emits_once_then_stops exRunB 60000 0 rfl rfl (by decide)).1

/-- Claim C3, counterexample.  `handleSegmentCompleted` has no defensive
`isActive` check: delivering the completion signal twice from a concrete
running three-segment state advances `currentSegmentIndex` twice (to 2), so
the second delivery is not a no-op. -/
theorem completion_handler_idempotence_refuted :
    ((handleSegmentCompleted exStateC3).1.currentSegmentIndex = 1) ∧
    ((handleSegmentCompleted (handleSegmentCompleted exStateC3).1).1.currentSegmentIndex = 2) ∧
    ((handleSegmentCompleted (handleSegmentCompleted exStateC3).1).1
      ≠ (handleSegmentCompleted exStateC3).1) := by
  refine ⟨rfl, rfl, by decide⟩

/-- Claim C3, amended.  Handling the segment-completion signal
unconditionally sets `isActive` to `false`, `userPaused` to `false`, and
advances `currentSegmentIndex` by exactly one; it performs no `isActive`
check, so a repeated delivery advances the index again. -/
theorem completion_handler_effects (s : SMState) :
    ((handleSegmentCompleted s).1.isActive = false) ∧
    ((handleSegmentCompleted s).1.userPaused = false) ∧
    ((handleSegmentCompleted s).1.currentSegmentIndex = s.currentSegmentIndex + 1) := by
  unfold handleSegmentCompleted
  simp only []
  split <;> exact ⟨rfl, rfl, rfl⟩

/-- Claim C4.  A user stop clears the pending auto-start timeout in every
combined state, so the subsequent passage of the settle delay changes
nothing and can never raise the timer core's `running` flag. -/
theorem stop_cancels_pending_autostart (c : SysState) (now : Hm) (nowMs : Int) :
    ((userStop c).sm.autoStartTimeout = false) ∧
    ((userStop c).tc.running = false) ∧
    (settleElapse (userStop c) now nowMs = userStop c) ∧
    ((settleElapse (userStop c) now nowMs).tc.running = false) := by
  unfold userStop settleElapse handleStop stopSegment
  simp

/-- Claim C5.  A tick whose wall-clock minute lies in
`[segmentStart, segmentStart + durationMinutes)` activates the current
scheduled, not-yet-activated segment with
`elapsedMinutes = t - segmentStart`, and the run configuration handed to the
timer core carries `durationSec - elapsedMinutes * 60`. -/
theorem midsession_join_activation (s : SMState) (seg : Segment) (t : Nat)
    (h1 : s.segments[s.currentSegmentIndex]? = some seg)
    (h2 : seg.manualStart = false)
    (h3 : s.isActive = false)
    (h4 : s.userPaused = false)
    (h5 : s.segmentActivated.getD s.currentSegmentIndex false = false)
    (h6 : parseTime seg.startTime ≤ t)
    (h7 : t < parseTime seg.startTime + seg.durationMinutes) :
    tick s t = activateSegment s s.currentSegmentIndex (t - parseTime seg.startTime) ∧
    (tick s t).1.isActive = true ∧
    (tick s t).1.segmentActivated = s.segmentActivated.set s.currentSegmentIndex true ∧
    (tick s t).2 = [Ev.timerConfigure (configForTimer seg (t - parseTime seg.startTime)),
       Ev.segmentActive s.currentSegmentIndex (t - parseTime seg.startTime) s.segments.length] ∧
    (configForTimer seg (t - parseTime seg.startTime)).segmentDuration
      = (seg.durationSec : Int) - ((t - parseTime seg.startTime : Nat) : Int) * 60 := by
  have hlt := lt_length_of_getElem? s seg h1
  have hg := getD_of_getElem? s seg h1
  have hseg := getElem_of_getElem? s seg h1 hlt
  have hw := tick_in_window s seg t h1 h2 h3 h4 h5 h6 h7
  refine ⟨hw, ?_, ?_, ?_, ?_⟩
  · rw [hw]; unfold activateSegment; simp [hlt]
  · rw [hw]; unfold activateSegment; simp [hlt]
  · rw [hw]; unfold activateSegment; simp [hlt, hg, hseg]
  · unfold configForTimer
    simp only [h2]
    cases hm : seg.mode <;> simp [hm]

/-- Witness for C5 at the spec's example: a scheduled CountDown segment
`{time: "10:00", duration: 20}` ticked at 10:05 activates with elapsed 5 and
a nominal duration of 900 seconds. -/
theorem midsession_join_activation_witness :
    tick (exState [exSegTen]) 605 = activateSegment (exState [exSegTen]) 0 5 ∧
    (configForTimer exSegTen 5).segmentDuration = 900 := by
  have h := midsession_join_activation (exState [exSegTen]) exSegTen 605
    rfl (by decide) (by decide) (by decide) (by decide) (by decide) (by decide)
  exact ⟨by simpa using h.1, by simpa using h.2.2.2.2⟩

/-- Claim C6.  A user stop sets `isActive := false` and `userPaused := true`
and leaves `currentSegmentIndex` unchanged, so a subsequent manual start
activates the same `segments[currentSegmentIndex]` segment (with elapsed 0)
rather than the next one. -/
theorem stop_preserves_index_resume_same_segment (s : SMState) (now : Hm) (seg : Segment)
    (h1 : s.segments[s.currentSegmentIndex]? = some seg) :
    ((handleStop s).isActive = false) ∧
    ((handleStop s).userPaused = true) ∧
    ((handleStop s).currentSegmentIndex = s.currentSegmentIndex) ∧
    (handleManualStart (handleStop s) now
      = activateSegment { handleStop s with userPaused := false }
          s.currentSegmentIndex 0) ∧
    ((handleManualStart (handleStop s) now).2
      = [Ev.timerConfigure (configForTimer seg 0),
         Ev.segmentActive s.currentSegmentIndex 0 s.segments.length]) := by
  have hlt := lt_length_of_getElem? s seg h1
  have hg := getD_of_getElem? s seg h1
  have hm : handleManualStart (handleStop s) now
      = activateSegment { handleStop s with userPaused := false }
          s.currentSegmentIndex 0 := by
    unfold handleManualStart handleStop
    simp [show ¬(s.segments.length ≤ s.currentSegmentIndex) from by omega]
  have hseg := getElem_of_getElem? s seg h1 hlt
  refine ⟨rfl, rfl, rfl, hm, ?_⟩
  rw [hm]
  unfold activateSegment
  simp [handleStop, hlt, hg, hseg]

/-- Witness for C6: stop then manual start on a one-segment schedule resumes
segment 0 itself. -/
theorem stop_preserves_index_resume_same_segment_witness :
    ((handleStop (exState [exSegTen])).currentSegmentIndex = 0) ∧
    ((handleManualStart (handleStop (exState [exSegTen])) ⟨12, 0⟩).2
      = [Ev.timerConfigure (configForTimer exSegTen 0),
         Ev.segmentActive 0 0 1]) := by
  have h := stop_preserves_index_resume_same_segment (exState [exSegTen]) ⟨12, 0⟩ exSegTen rfl
  exact ⟨h.2.2.1, by simpa using h.2.2.2.2⟩

/-- Claim C7.  Within one configuration load the activation flags are
monotonic: no scheduler operation (tick, manual start, stop, completion)
resets a `true` flag; a tick whose current segment is already activated is a
complete no-op (no re-activation); and only `loadConfig` resets the flags, by
installing a fresh all-`false` list. -/
theorem activated_flag_monotonic :
    (∀ (op : SMOp) (s : SMState) (i : Nat),
        s.segmentActivated[i]? = some true →
        ((applySM op s).segmentActivated)[i]? = some true) ∧
    (∀ (s : SMState) (t : Nat),
        s.segmentActivated.getD s.currentSegmentIndex false = true →
        tick s t = (s, [])) ∧
    (∀ (s : SMState) (cfgSegments : List CfgSegment),
        (loadConfigA s cfgSegments).segmentActivated =
          List.replicate (loadSegmentsA cfgSegments).length false) :=
  ⟨applySM_mono, tick_noop_of_activated, fun _ _ => rfl⟩

/-- Witness for C7: a stop keeps segment 0's flag `true`, and a tick on an
already-activated current segment changes nothing. -/
theorem activated_flag_monotonic_witness :
    ((applySM SMOp.stopOp exActivatedState).segmentActivated)[0]? = some true ∧
    tick exActivatedState 700 = (exActivatedState, []) :=
  ⟨activated_flag_monotonic.1 SMOp.stopOp exActivatedState 0 (by decide),
   activated_flag_monotonic.2.1 exActivatedState 700 (by decide)⟩

/-- Claim C8.  A tick at or past the current scheduled segment's window end
(`segmentStart + durationMinutes`) advances `currentSegmentIndex` and
immediately re-evaluates the next segment within the very same tick call,
leaving the skipped segment's activation flag untouched; `tick` is a total
function (its expired-skip recursion terminates, decreasing the number of
remaining segments). -/
theorem expired_segment_skip (s : SMState) (seg : Segment) (t : Nat)
    (h1 : s.segments[s.currentSegmentIndex]? = some seg)
    (h2 : seg.manualStart = false)
    (h3 : s.isActive = false)
    (h4 : s.userPaused = false)
    (h5 : s.segmentActivated.getD s.currentSegmentIndex false = false)
    (h7 : parseTime seg.startTime + seg.durationMinutes ≤ t) :
    tick s t = tick { s with currentSegmentIndex := s.currentSegmentIndex + 1 } t ∧
    ((tick s t).1).segmentActivated[s.currentSegmentIndex]?
      = s.segmentActivated[s.currentSegmentIndex]? := by
  have he := tick_expired s seg t h1 h2 h3 h4 h5 h7
  refine ⟨he, ?_⟩
  rw [he]
  exact tick_preserves_below _ t s.currentSegmentIndex (Nat.lt_succ_self _)

/-- Witness for C8: at 11:40 the expired `{10:00, 20}` segment is skipped
without activation and the same tick evaluates the next segment. -/
theorem expired_segment_skip_witness :
    tick (exState [exSegTen, exSegDown]) 700
      = tick { exState [exSegTen, exSegDown] with currentSegmentIndex := 1 } 700 ∧
    ((tick (exState [exSegTen, exSegDown]) 700).1).segmentActivated[0]? = some false := by
  have h := expired_segment_skip (exState [exSegTen, exSegDown]) exSegTen 700
    rfl (by decide) (by decide) (by decide) (by decide) (by decide)
  exact ⟨h.1, by simpa [exState, exSegTen, exSegDown] using h.2⟩

/-- Claim C9, counterexample.  A `once` wrapper whose inner callback throws
during the publish never reaches its self-removing `off` call (`emit`
catches the exception per-listener), so after the first publish that
invokes it the wrapper is still subscribed, and a later publish invokes it
again: over a two-publish trace (first throws, second does not) it appears
in both invocation lists. -/
theorem once_throwing_handler_reinvoked :
    ((⟨5, true⟩ : Listener).isOnce = true) ∧
    ((⟨5, true⟩ : Listener) ∈ (busEmit [⟨5, true⟩] (fun _ => true)).1) ∧
    ((⟨5, true⟩ : Listener) ∈ (busEmit [⟨5, true⟩] (fun _ => true)).2) ∧
    ((emitTrace [fun _ => true, fun _ => false] [⟨5, true⟩]).countP
      (fun p => decide ((⟨5, true⟩ : Listener) ∈ p.1)) = 2) := by
  refine ⟨rfl, ?_, ?_, ?_⟩ <;> decide

/-- Claim C9, amended.  A handler subscribed through the bus's one-shot
`once` is invoked by the next publish, and its wrapper unsubscribes itself
exactly when the inner callback returns normally: over any sequence of
publishes it is invoked with a normal return by at most one publish — after
the first normal-return invocation it is no longer subscribed — while a
publish in which the callback throws leaves it subscribed for the next
publish. -/
theorem once_at_most_one_normal_invocation :
    (∀ (l : List Listener) (hid : Nat) (th : Nat → Bool),
        (⟨hid, true⟩ : Listener) ∈ (busEmit (busOnce l hid) th).1) ∧
    (∀ (l : List Listener) (hid : Nat) (th : Nat → Bool),
        th hid = false →
        (⟨hid, true⟩ : Listener) ∉ (busEmit (busOnce l hid) th).2) ∧
    (∀ (ths : List (Nat → Bool)) (l : List Listener) (w : Listener),
        w.isOnce = true →
        (emitTrace ths l).countP (fun p => decide (w ∈ p.1) && !p.2 w.hid) ≤ 1) := by
  refine ⟨?_, ?_, fun ths l w hw => once_normal_count ths l w hw⟩
  · intro l hid th
    simp [busEmit, busOnce]
  · intro l hid th hth
    exact once_removed_of_normal _ _ th rfl hth

/-- Witness for the C9 amended theorem: a concrete `once` wrapper is invoked
by the next publish, is unsubscribed by a normally-returning publish, and
over a three-publish trace has at most one normal-return invocation. -/
theorem once_at_most_one_normal_invocation_witness :
    ((⟨5, true⟩ : Listener) ∈ (busEmit (busOnce [] 5) (fun _ => false)).1) ∧
    ((⟨5, true⟩ : Listener) ∉ (busEmit (busOnce [] 5) (fun _ => false)).2) ∧
    ((emitTrace [fun _ => true, fun _ => false, fun _ => false] [⟨5, true⟩]).countP
      (fun p => decide ((⟨5, true⟩ : Listener) ∈ p.1) && !p.2 5) ≤ 1) :=
  ⟨once_at_most_one_normal_invocation.1 [] 5 (fun _ => false),
   once_at_most_one_normal_invocation.2.1 [] 5 (fun _ => false) (by decide),
   once_at_most_one_normal_invocation.2.2
     [fun _ => true, fun _ => false, fun _ => false] [⟨5, true⟩] ⟨5, true⟩ (by decide)⟩

/-- Claim C10, counterexample.  The two embedded revisions of
`loadConfig` disagree on a multi-segment configuration whose first segment
is scheduled at the load-time wall clock (10:00 loaded at 10:00): the first
revision classifies it `manualStart = false` with `autoStart` set, the
second classifies it as an immediate preset (`manualStart = true`,
`autoStart = none`). -/
theorem loadConfig_revisions_equivalence_refuted :
    ((loadSegmentsA exCfgNear).map Segment.manualStart = [false, false]) ∧
    ((loadSegmentsB exCfgNear 600).map Segment.manualStart = [true, false]) ∧
    ((loadSegmentsA exCfgNear).map Segment.autoStart
      ≠ (loadSegmentsB exCfgNear 600).map Segment.autoStart) := by
  refine ⟨by decide, by decide, by decide⟩

/-- Claim C10, amended.  The two embedded revisions of `loadConfig` agree on
a multi-segment configuration exactly when no segment's scheduled time lies
within 2 minutes of the load-time wall clock: under that hypothesis both
revisions build identical segment lists (hence identical
`manualStart`/`autoStart` classification). -/
theorem loadConfig_revisions_agree_far_from_now
    (cfgSegments : List CfgSegment) (now : Nat)
    (h : ∀ c ∈ cfgSegments, 2 < ((parseTime c.time : Int) - (now : Int)).natAbs) :
    loadSegmentsA cfgSegments = loadSegmentsB cfgSegments now := by
  unfold loadSegmentsA loadSegmentsB
  apply List.map_congr_left
  intro c hc
  have hcc := h c hc
  have hn : ¬(((parseTime c.time : Int) - (now : Int)).natAbs ≤ 2) := by omega
  simp [hn]

/-- Witness for the C10 amended theorem: a `{10:00, 20}` configuration
loaded at 11:40 is classified identically by both revisions. -/
theorem loadConfig_revisions_agree_far_from_now_witness :
    loadSegmentsA [⟨⟨10, 0⟩, 20, none⟩] = loadSegmentsB [⟨⟨10, 0⟩, 20, none⟩] 700 :=
  loadConfig_revisions_agree_far_from_now [⟨⟨10, 0⟩, 20, none⟩] 700 (by decide)
